import Mathlib

/-!
Shallow embedding of `src/rich_presence_config.rs` from the repository
linux-discord-rich-presence, together with proofs about the claims of its
specification.

The source file has four pieces:

* `load_config` (lines 37-53): read a file to a string, parse it as one
  `UpdateMessage`, logging on read or parse failure and returning `None`.
* `RichPresenceConfig::read` (lines 60-80): loop over the lines of a spawned
  process; parse each line, send parsed messages to an mpsc channel, break on a
  failed send, log and skip lines that fail to parse, and log a final
  "stdout was closed" diagnostic after the loop.
* `RichPresenceConfig::run` (lines 82-125): create one `notify` watcher and one
  std mpsc receiver `rx`; then, at startup and after every watcher wakeup,
  re-arm the wakeup wait (a `spawn_blocking` call that does `rx.recv()` and
  returns the same `rx`), test `is_executable(&path)`, and either spawn
  `Self::read` as a detached tokio task (executable) or run `load_config`
  inline and send its message (plain file), returning from `run` entirely when
  that inline send fails.
* `RichPresenceConfig::new` / `Drop` (lines 127-138): `new` spawns `run` as a
  tokio task and returns `Self` unconditionally; `Drop` calls
  `self.task.abort()` on that one task.

The message type is opaque in the source (serde deserialization), so the model
is parametric in a parse function `String → Except String α`; file reads,
permission checks, channel liveness and watcher wakeups are inputs of the
model, one record per reload cycle.

Relevant library semantics encoded in the model, from the tokio and
is_executable crates:

* dropping or overwriting a `tokio::task::JoinHandle` detaches the task; the
  task keeps running.  Only `JoinHandle::abort` cancels it, and aborting one
  task does not abort tasks that it spawned with `tokio::spawn`.
* `tokio::sync::mpsc::Sender::send` fails exactly when the receiving half has
  been dropped, which is permanent: once a send fails, all later sends fail.
* `is_executable::is_executable` returns `false` when the metadata query
  fails (a permission-check error is reported as "not executable").
-/

namespace RichPresence

/-- Structured log lines emitted by the source through the `log` crate macros.
The constructors carry exactly the dynamic data interpolated by the source:
`error!("Error while reading config file: ...", err)`,
`error!("Error while parsing config file: ...", err, config)`,
`error!("Error while parsing config response: ...", err, line)`, and the
constant line `error!("Config Process stdout was closed ...")`. -/
inductive LogEvent where
  | readFileError (err : String)
  | parseFileError (err : String) (raw : String)
  | parseLineError (err : String) (raw : String)
  | stdoutClosed
  deriving DecidableEq

/-- Embedding of the free function `load_config` (source lines 37-53).
`readResult` is the outcome of `read_to_string(path).await`; `parse` is
`serde_json::from_str::<UpdateMessage>`.  Returns the optional message together
with the log lines emitted, in order. -/
def load_config {α : Type} (parse : String → Except String α)
    (readResult : Except String String) : Option α × List LogEvent :=
  match readResult with
  | Except.ok config =>
    match parse config with
    | Except.ok message => (some message, [])
    | Except.error err => (none, [LogEvent.parseFileError err config])
  | Except.error err => (none, [LogEvent.readFileError err])

/-- One step of the process line stream: `process.read_line().await` yields
`Ok(Some(line))`, `Ok(None)` (end of stream) or `Err(..)` (I/O error). -/
inductive ReadLineResult where
  | line (s : String)
  | eof
  | ioError
  deriving DecidableEq

/-- Whether the `i`-th send on the updates channel succeeds.  `closedAfter`
describes the downstream receiver: `none` means it stays alive, `some n` means
it is dropped after accepting `n` messages, so sends with index `< n` succeed
and all later sends fail (receiver loss is permanent for a tokio mpsc). -/
def sendOk (closedAfter : Option Nat) (i : Nat) : Bool :=
  match closedAfter with
  | none => true
  | some n => decide (i < n)

/-- Embedding of the `while let Ok(Some(line)) = process.read_line().await`
loop of `RichPresenceConfig::read` (source lines 63-77).  `sent` counts the
sends attempted so far.  For each `Ok(Some(line))`: on parse success the
message is sent, and a failed send breaks the loop; on parse failure the
error is logged with the raw line and the loop continues.  The loop stops at
`Ok(None)`, at `Err(..)`, or when the stream description runs out.  Returns
the messages accepted by the channel and the log lines, each in order. -/
def readLoop {α : Type} (parse : String → Except String α)
    (closedAfter : Option Nat) :
    Nat → List ReadLineResult → List α × List LogEvent
  | _, [] => ([], [])
  | sent, ReadLineResult.line s :: rest =>
    match parse s with
    | Except.ok message =>
      if sendOk closedAfter sent then
        ((message :: (readLoop parse closedAfter (sent + 1) rest).1),
          (readLoop parse closedAfter (sent + 1) rest).2)
      else
        ([], [])
    | Except.error err =>
      ((readLoop parse closedAfter sent rest).1,
        LogEvent.parseLineError err s :: (readLoop parse closedAfter sent rest).2)
  | _, ReadLineResult.eof :: _ => ([], [])
  | _, ReadLineResult.ioError :: _ => ([], [])

/-- Embedding of `RichPresenceConfig::read` (source lines 60-80): run the
line loop from send index 0, then unconditionally log the
`"Config Process stdout was closed (it died?)"` diagnostic that follows the
loop at line 79. -/
def RichPresenceConfig.read {α : Type} (parse : String → Except String α)
    (closedAfter : Option Nat) (stream : List ReadLineResult) :
    List α × List LogEvent :=
  ((readLoop parse closedAfter 0 stream).1,
    (readLoop parse closedAfter 0 stream).2 ++ [LogEvent.stdoutClosed])

/-- Messages of a line list that parse successfully, in order: what a fully
delivered process-mode generation sends to the channel. -/
def parsedLines {α : Type} (parse : String → Except String α)
    (lines : List String) : List α :=
  lines.filterMap (fun s => (parse s).toOption)

/-- Parse-failure log lines for a line list, in order. -/
def lineParseLogs {α : Type} (parse : String → Except String α)
    (lines : List String) : List LogEvent :=
  lines.filterMap (fun s =>
    match parse s with
    | Except.ok _ => none
    | Except.error e => some (LogEvent.parseLineError e s))

/-- Recognizer for the terminal diagnostic log line. -/
def isStdoutClosed : LogEvent → Bool
  | LogEvent.stdoutClosed => true
  | _ => false

/-- Outcome of the `is_executable(&path)` metadata query for one cycle:
either the permission bits were read (with the executable bit `b`) or the
query itself failed. -/
inductive ExecCheck where
  | execBit (b : Bool)
  | checkError
  deriving DecidableEq

/-- Embedding of `is_executable::is_executable`: the crate maps a failed
metadata query to `false`. -/
def is_executable (c : ExecCheck) : Bool :=
  match c with
  | ExecCheck.execBit b => b
  | ExecCheck.checkError => false

/-- The two delivery modes distinguished by `run` at source line 102. -/
inductive Mode where
  | executable
  | plainFile
  deriving DecidableEq

/-- Observable actions of the `run` loop, in program order:
`reloadNotice` is the `info!("Config file was changed! Restarting...")` at
line 121; `armWatcher rxId` is the `spawn_blocking` that parks on
`rx.recv()` (lines 93-100), tagged with the identity of the receiver it
parks on; `modeSelect` is the `is_executable` branch at line 102;
`spawnReader gen` is `spawn(Self::read(..))` at line 103; `staticDeliver gen`
is a successful inline `updates_sender.send` of a loaded static config at
line 108. -/
inductive RunEvent where
  | reloadNotice
  | armWatcher (rxId : Nat)
  | modeSelect (m : Mode)
  | spawnReader (gen : Nat)
  | staticDeliver (gen : Nat)
  deriving DecidableEq

/-- Environment of one reload cycle (one expansion of the `reload_config!`
macro): what the filesystem and the downstream receiver do during it.
`check` is the `is_executable` query outcome; `loadInput` is the
`read_to_string` outcome used by `load_config` in the plain-file branch;
`sendOkNow` tells whether the inline static send would succeed (receiver
still alive); `readerSelfEnds` tells whether a reader task spawned in this
cycle terminates on its own (its line stream ends) before the next wakeup. -/
structure CycleEnv where
  check : ExecCheck
  loadInput : Except String String
  sendOkNow : Bool
  readerSelfEnds : Bool

/-- State of the orchestrator system as `run` executes.  `events` is the
trace so far; `activeReaders` holds the generation indices of spawned
`Self::read` tasks that are still running (the source never aborts them:
`_reader_task` is only overwritten, which detaches the previous task);
`returned` records that `run` hit its `return` statement (line 109);
`rxId` is the identity of the single std mpsc receiver created at line 83
and threaded through every `spawn_blocking` call. -/
structure RunState where
  events : List RunEvent
  activeReaders : List Nat
  returned : Bool
  rxId : Nat
  deriving DecidableEq

/-- The state of `run` just after the watcher and its channel are created
(source lines 83-86): no events, no readers, receiver identity 0. -/
def initRunState : RunState :=
  { events := [], activeReaders := [], returned := false, rxId := 0 }

/-- Embedding of one expansion of the `reload_config!` macro (source lines
91-114) for generation `gen`.  In order: re-arm the watcher wait on the same
receiver (lines 93-100); test `is_executable(&path)` (line 102); if
executable, spawn `Self::read` as a detached task (line 103) — the previous
`_reader_task` handle is merely overwritten, so earlier readers stay active;
otherwise run `load_config` inline (line 107) and, when it yields a message,
send it, setting `returned` when the send fails (`return`, lines 108-110). -/
def reloadConfig {α : Type} (parse : String → Except String α) (gen : Nat)
    (env : CycleEnv) (st : RunState) : RunState :=
  let st1 : RunState := { st with events := st.events ++ [RunEvent.armWatcher st.rxId] }
  if is_executable env.check then
    { st1 with
        events := st1.events ++ [RunEvent.modeSelect Mode.executable, RunEvent.spawnReader gen],
        activeReaders := gen :: st1.activeReaders }
  else
    let st2 : RunState := { st1 with events := st1.events ++ [RunEvent.modeSelect Mode.plainFile] }
    match (load_config parse env.loadInput).1 with
    | some _ =>
      if env.sendOkNow then
        { st2 with events := st2.events ++ [RunEvent.staticDeliver gen] }
      else
        { st2 with returned := true }
    | none => st2

/-- One full iteration of the `run` loop body for generation `gen`: the
reload notice (line 121, absent for the startup generation 0), the
`reload_config!` expansion, and the spontaneous termination of a reader
spawned this cycle when its line stream ends before the next wakeup. -/
def cycleStep {α : Type} (parse : String → Except String α) (gen : Nat)
    (env : CycleEnv) (st : RunState) : RunState :=
  let st1 : RunState :=
    if gen = 0 then st
    else { st with events := st.events ++ [RunEvent.reloadNotice] }
  let st2 : RunState := reloadConfig parse gen env st1
  if env.readerSelfEnds then
    { st2 with activeReaders := st2.activeReaders.filter (fun g => g != gen) }
  else st2

/-- Embedding of the body of `RichPresenceConfig::run` after watcher setup
(source lines 116-124): the startup `reload_config!` and then one iteration
per watcher wakeup, numbered by generation.  Each `CycleEnv` in the list is
one startup-or-wakeup cycle.  Once `run` has returned (static send failure),
later wakeups have no effect. -/
def runFrom {α : Type} (parse : String → Except String α) :
    Nat → RunState → List CycleEnv → RunState
  | _, st, [] => st
  | gen, st, env :: rest =>
    if st.returned then st
    else runFrom parse (gen + 1) (cycleStep parse gen env st) rest

/-- Embedding of `RichPresenceConfig::run` (source lines 82-125) given a
successful watcher setup, over the listed cycles. -/
def RichPresenceConfig.run {α : Type} (parse : String → Except String α)
    (envs : List CycleEnv) : RunState :=
  runFrom parse 0 initRunState envs

/-- Outcome of the `Watcher::new(tx, Duration::from_secs(1)).unwrap()` and
`watcher.watch(&path, RecursiveMode::NonRecursive).unwrap()` calls at source
lines 84-86. -/
inductive WatcherSetup where
  | ok
  | createError
  | watchError
  deriving DecidableEq

/-- Result of the spawned `run` task: whether it panicked (a failing
`unwrap` at lines 84-86 panics inside the spawned task, before any cycle
executes) and the state it reached. -/
structure RunTaskResult where
  panicked : Bool
  finalState : RunState
  deriving DecidableEq

/-- The spawned `run` task, watcher setup included: either unwrap panics at
once with an empty trace, or the cycle loop runs. -/
def runTask {α : Type} (parse : String → Except String α)
    (w : WatcherSetup) (envs : List CycleEnv) : RunTaskResult :=
  match w with
  | WatcherSetup.ok => { panicked := false, finalState := RichPresenceConfig.run parse envs }
  | WatcherSetup.createError => { panicked := true, finalState := initRunState }
  | WatcherSetup.watchError => { panicked := true, finalState := initRunState }

/-- Embedding of the `RichPresenceConfig` struct (source lines 55-57): it
owns exactly the `JoinHandle` of the spawned `run` task. -/
structure RichPresenceConfig where
  task : RunTaskResult
  deriving DecidableEq

/-- Embedding of `RichPresenceConfig::new` (source lines 127-131): spawn
`run` and return `Self`.  The Rust signature is `fn new(..) -> Self`: there
is no failure path out of the constructor; the `unwrap` calls execute inside
the spawned task after `new` has already returned. -/
def RichPresenceConfig.new {α : Type} (parse : String → Except String α)
    (w : WatcherSetup) (envs : List CycleEnv) : RichPresenceConfig :=
  { task := runTask parse w envs }

/-- Modelled from the spec: a constructor for the Reload Orchestrator that
propagates a Change Watcher establishment failure to its caller
("propagated to the caller of the constructor", "abort the orchestrator
construction entirely").  Used only to compare the source constructor
against the claimed behavior; the source has no such failure path. -/
def new_spec {α : Type} (parse : String → Except String α)
    (w : WatcherSetup) (envs : List CycleEnv) : Option RichPresenceConfig :=
  match w with
  | WatcherSetup.ok => some (RichPresenceConfig.new parse WatcherSetup.ok envs)
  | WatcherSetup.createError => none
  | WatcherSetup.watchError => none

/-- What remains of the system after the handle is dropped.  `Drop for
RichPresenceConfig` (source lines 134-138) calls `self.task.abort()`, which
aborts only the `run` task; tasks that `run` spawned with `tokio::spawn`
are independent and are not aborted by it. -/
structure SystemAfterDrop where
  loopAlive : Bool
  activeReaders : List Nat
  deriving DecidableEq

/-- Embedding of `Drop for RichPresenceConfig`: the loop task is aborted,
the spawned reader tasks of the final state remain. -/
def dropHandle (c : RichPresenceConfig) : SystemAfterDrop :=
  { loopAlive := false, activeReaders := c.task.finalState.activeReaders }

/-- The mode `run` picks for one cycle, as a function of that cycle's
permission-check outcome (the condition at source line 102). -/
def selectedMode (c : ExecCheck) : Mode :=
  if is_executable c then Mode.executable else Mode.plainFile

/-- Projection of a trace event to the mode it selects, if any. -/
def modeOf : RunEvent → Option Mode
  | RunEvent.modeSelect m => some m
  | _ => none

/-- Scan checking that each cycle of a trace arms the watcher wait before
selecting a mode or delivering anything.  The boolean argument tells whether
an arm event has happened since the last reload notice; mode selection,
reader spawns and static deliveries are only legal while armed. -/
def armOk : Bool → List RunEvent → Bool
  | _, [] => true
  | _, RunEvent.reloadNotice :: rest => armOk false rest
  | _, RunEvent.armWatcher _ :: rest => armOk true rest
  | a, RunEvent.modeSelect _ :: rest => a && armOk a rest
  | a, RunEvent.spawnReader _ :: rest => a && armOk a rest
  | a, RunEvent.staticDeliver _ :: rest => a && armOk a rest

/-- Final armed flag after scanning a trace. -/
def armEnd : Bool → List RunEvent → Bool
  | a, [] => a
  | _, RunEvent.reloadNotice :: rest => armEnd false rest
  | _, RunEvent.armWatcher _ :: rest => armEnd true rest
  | a, RunEvent.modeSelect _ :: rest => armEnd a rest
  | a, RunEvent.spawnReader _ :: rest => armEnd a rest
  | a, RunEvent.staticDeliver _ :: rest => armEnd a rest

/-- Whether an event, if it is an arm event, parks on the receiver created
at startup (identity 0): true exactly when no fresh watcher mechanism is
used. -/
def armZero : RunEvent → Bool
  | RunEvent.armWatcher r => r == 0
  | _ => true

/-- A parse function used for concrete evaluations: every line fails. -/
def parseNone : String → Except String Nat :=
  fun _ => Except.error "invalid json"

/-- A parse function used for concrete evaluations: every input parses. -/
def parseAll : String → Except String Nat :=
  fun _ => Except.ok 0

/-- A cycle whose path is executable and whose spawned reader keeps
running past the next wakeup (a long-lived subprocess). -/
def envExec : CycleEnv :=
  { check := ExecCheck.execBit true, loadInput := Except.ok "cfg",
    sendOkNow := true, readerSelfEnds := false }

/-- A cycle whose path is a plain file that fails to load. -/
def envPlain : CycleEnv :=
  { check := ExecCheck.execBit false, loadInput := Except.error "io",
    sendOkNow := true, readerSelfEnds := false }

/-- A cycle whose permission check itself fails. -/
def envCheckFail : CycleEnv :=
  { check := ExecCheck.checkError, loadInput := Except.error "io",
    sendOkNow := true, readerSelfEnds := false }

/-- A plain-file cycle whose config loads but whose inline send fails
because the downstream receiver is gone. -/
def envStaticFail : CycleEnv :=
  { check := ExecCheck.execBit false, loadInput := Except.ok "cfg",
    sendOkNow := false, readerSelfEnds := false }

/-- The events appended to the trace by one iteration of the run loop, as a
function of the generation number, the cycle environment and the receiver
identity: the reload notice (non-startup cycles only), the watcher re-arm,
the mode selection, and the delivery events of the chosen branch. -/
def cyclePiece {α : Type} (parse : String → Except String α) (gen : Nat)
    (env : CycleEnv) (rx : Nat) : List RunEvent :=
  (if gen = 0 then [] else [RunEvent.reloadNotice]) ++
    (RunEvent.armWatcher rx ::
      (if is_executable env.check then
        [RunEvent.modeSelect Mode.executable, RunEvent.spawnReader gen]
      else
        RunEvent.modeSelect Mode.plainFile ::
          (match (load_config parse env.loadInput).1 with
           | some _ => if env.sendOkNow then [RunEvent.staticDeliver gen] else []
           | none => [])))

lemma readLoop_wellformed {α : Type} (parse : String → Except String α) :
    ∀ (lines : List String) (s : Nat),
      readLoop parse none s (lines.map ReadLineResult.line ++ [ReadLineResult.eof]) =
        (parsedLines parse lines, lineParseLogs parse lines)
  | [], s => by simp [readLoop, parsedLines, lineParseLogs]
  | l :: ls, s => by
    cases h : parse l with
    | ok m =>
      simp [readLoop, h, sendOk, parsedLines, lineParseLogs, Except.toOption,
        readLoop_wellformed parse ls (s + 1)]
    | error e =>
      simp [readLoop, h, parsedLines, lineParseLogs, Except.toOption,
        readLoop_wellformed parse ls s]

lemma readLoop_take {α : Type} (parse : String → Except String α) (n : Nat) :
    ∀ (stream : List ReadLineResult) (s : Nat),
      (readLoop parse (some n) s stream).1 =
        ((readLoop parse none s stream).1).take (n - s)
  | [], s => by simp [readLoop]
  | ReadLineResult.line l :: rest, s => by
    cases h : parse l with
    | ok m =>
      by_cases hs : s < n
      · have harith : n - s = (n - (s + 1)) + 1 := by omega
        simp [readLoop, h, sendOk, hs, harith, readLoop_take parse n rest (s + 1)]
      · have harith : n - s = 0 := by omega
        simp [readLoop, h, sendOk, hs, harith]
    | error e =>
      simp [readLoop, h, readLoop_take parse n rest s]
  | ReadLineResult.eof :: rest, s => by simp [readLoop]
  | ReadLineResult.ioError :: rest, s => by simp [readLoop]

lemma readLoop_no_stdoutClosed {α : Type} (parse : String → Except String α)
    (closedAfter : Option Nat) :
    ∀ (stream : List ReadLineResult) (s : Nat),
      ((readLoop parse closedAfter s stream).2).countP isStdoutClosed = 0
  | [], s => by simp [readLoop]
  | ReadLineResult.line l :: rest, s => by
    cases h : parse l with
    | ok m =>
      cases hs : sendOk closedAfter s with
      | true => simp [readLoop, h, hs, readLoop_no_stdoutClosed parse closedAfter rest (s + 1)]
      | false => simp [readLoop, h, hs]
    | error e =>
      simp [readLoop, h, isStdoutClosed,
        readLoop_no_stdoutClosed parse closedAfter rest s]
  | ReadLineResult.eof :: rest, s => by simp [readLoop]
  | ReadLineResult.ioError :: rest, s => by simp [readLoop]

/-- Claim C2: the static loader returns `Some message` exactly when both the
file read and the parse succeed, the message being the parse of the file
text; on a read failure it logs the I/O error and returns `None`; on a parse
failure it logs the reason together with the raw text and returns `None`. -/
theorem c2_load_config_contract {α : Type} (parse : String → Except String α)
    (readResult : Except String String) :
    (∀ m : α, (load_config parse readResult).1 = some m ↔
        ∃ config, readResult = Except.ok config ∧ parse config = Except.ok m) ∧
    (∀ err, readResult = Except.error err →
        load_config parse readResult = (none, [LogEvent.readFileError err])) ∧
    (∀ config err, readResult = Except.ok config → parse config = Except.error err →
        load_config parse readResult = (none, [LogEvent.parseFileError err config])) ∧
    (∀ config m, readResult = Except.ok config → parse config = Except.ok m →
        load_config parse readResult = (some m, [])) := by
  refine ⟨?_, ?_, ?_, ?_⟩
  · intro m
    constructor
    · intro h
      cases hr : readResult with
      | error e => rw [hr] at h; simp [load_config] at h
      | ok config =>
        cases hp : parse config with
        | ok m2 =>
          rw [hr] at h
          simp [load_config, hp] at h
          exact ⟨config, rfl, by rw [hp, h]⟩
        | error e =>
          rw [hr] at h
          simp [load_config, hp] at h
    · rintro ⟨config, hc, hp⟩
      rw [hc]
      simp [load_config, hp]
  · intro err hr
    rw [hr]
    simp [load_config]
  · intro config err hr hp
    rw [hr]
    simp [load_config, hp]
  · intro config m hr hp
    rw [hr]
    simp [load_config, hp]

/-- Witness for C2 at a concrete input: a file that reads but fails to
parse yields no message and one log line carrying the reason and the raw
text. -/
theorem c2_load_config_contract_witness :
    load_config parseNone (Except.ok "x") =
      (none, [LogEvent.parseFileError "invalid json" "x"]) :=
  (c2_load_config_contract parseNone (Except.ok "x")).2.2.1 "x" "invalid json" rfl rfl

/-- Claim C3: in process mode, with the downstream receiver alive, a source
emitting the given lines and then exiting delivers exactly the messages of
the lines that parse, in emission order, logs one parse error carrying the
raw line for each line that does not parse, and ends with the termination
log.  The claimed N-well-formed-lines and malformed-middle-line scenarios
are instances of this equation. -/
theorem c3_process_mode_delivery {α : Type} (parse : String → Except String α)
    (lines : List String) :
    RichPresenceConfig.read parse none (lines.map ReadLineResult.line ++ [ReadLineResult.eof]) =
      (parsedLines parse lines, lineParseLogs parse lines ++ [LogEvent.stdoutClosed]) := by
  simp [RichPresenceConfig.read, readLoop_wellformed parse lines 0]

/-- Claim C6: in process mode, when the downstream receiver is dropped
after accepting n messages, the reader delivers exactly the first n
messages it would have delivered to a live receiver and stops: the failed
send breaks the loop and no further message is produced. -/
theorem c6_send_failure_ends_generation {α : Type} (parse : String → Except String α)
    (n : Nat) (stream : List ReadLineResult) :
    (RichPresenceConfig.read parse (some n) stream).1 =
      ((RichPresenceConfig.read parse none stream).1).take n ∧
    (RichPresenceConfig.read parse (some n) stream).1.length ≤ n := by
  have h := readLoop_take parse n stream 0
  constructor
  · simpa [RichPresenceConfig.read] using h
  · simp [RichPresenceConfig.read, h]

/-- Claim C10: whatever the line stream and the downstream receiver do, the
reader logs the stdout-was-closed diagnostic exactly once, as the last log
line of the generation. -/
theorem c10_stdout_closed_logged_once {α : Type} (parse : String → Except String α)
    (closedAfter : Option Nat) (stream : List ReadLineResult) :
    ((RichPresenceConfig.read parse closedAfter stream).2).countP isStdoutClosed = 1 ∧
    ((RichPresenceConfig.read parse closedAfter stream).2).getLast? =
      some LogEvent.stdoutClosed := by
  constructor
  · simp [RichPresenceConfig.read, List.countP_append, isStdoutClosed,
      readLoop_no_stdoutClosed parse closedAfter stream 0]
  · simp [RichPresenceConfig.read]

lemma cycleStep_events {α : Type} (parse : String → Except String α) (gen : Nat)
    (env : CycleEnv) (st : RunState) :
    (cycleStep parse gen env st).events = st.events ++ cyclePiece parse gen env st.rxId := by
  by_cases hg : gen = 0 <;>
    cases hx : is_executable env.check <;>
      rcases hl : (load_config parse env.loadInput).1 with _ | m <;>
        cases hs : env.sendOkNow <;>
          cases hr : env.readerSelfEnds <;>
            simp [cycleStep, reloadConfig, cyclePiece, hg, hx, hl, hs, hr]

lemma cycleStep_rxId {α : Type} (parse : String → Except String α) (gen : Nat)
    (env : CycleEnv) (st : RunState) :
    (cycleStep parse gen env st).rxId = st.rxId := by
  by_cases hg : gen = 0 <;>
    cases hx : is_executable env.check <;>
      rcases hl : (load_config parse env.loadInput).1 with _ | m <;>
        cases hs : env.sendOkNow <;>
          cases hr : env.readerSelfEnds <;>
            simp [cycleStep, reloadConfig, hg, hx, hl, hs, hr]

lemma runFrom_of_returned {α : Type} (parse : String → Except String α) :
    ∀ (envs : List CycleEnv) (gen : Nat) (st : RunState), st.returned = true →
      runFrom parse gen st envs = st
  | [], _, _, _ => rfl
  | _ :: _, gen, st, h => by simp [runFrom, h]

lemma runFrom_append {α : Type} (parse : String → Except String α) :
    ∀ (xs ys : List CycleEnv) (gen : Nat) (st : RunState),
      runFrom parse gen st (xs ++ ys) =
        runFrom parse (gen + xs.length) (runFrom parse gen st xs) ys
  | [], ys, gen, st => by simp [runFrom]
  | x :: xs, ys, gen, st => by
    cases hst : st.returned with
    | true =>
      rw [runFrom_of_returned parse ((x :: xs) ++ ys) gen st hst,
        runFrom_of_returned parse (x :: xs) gen st hst,
        runFrom_of_returned parse ys (gen + (x :: xs).length) st hst]
    | false =>
      have harith : gen + 1 + xs.length = gen + (x :: xs).length := by
        simp [List.length_cons]; omega
      rw [List.cons_append]
      simp only [runFrom, hst, Bool.false_eq_true, if_false]
      rw [runFrom_append parse xs ys (gen + 1) (cycleStep parse gen x st), harith]

lemma armOk_append :
    ∀ (xs ys : List RunEvent) (a : Bool),
      armOk a (xs ++ ys) = (armOk a xs && armOk (armEnd a xs) ys)
  | [], ys, a => by simp [armOk, armEnd]
  | e :: xs, ys, a => by
    cases e <;> simp [armOk, armEnd, armOk_append xs ys, Bool.and_assoc]

lemma armOk_cyclePiece {α : Type} (parse : String → Except String α) (gen : Nat)
    (env : CycleEnv) (rx : Nat) (a : Bool) :
    armOk a (cyclePiece parse gen env rx) = true := by
  by_cases hg : gen = 0 <;>
    cases hx : is_executable env.check <;>
      rcases hl : (load_config parse env.loadInput).1 with _ | m <;>
        cases hs : env.sendOkNow <;>
          simp [cyclePiece, armOk, hg, hx, hl, hs]

lemma cyclePiece_armZero {α : Type} (parse : String → Except String α) (gen : Nat)
    (env : CycleEnv) :
    (cyclePiece parse gen env 0).all armZero = true := by
  by_cases hg : gen = 0 <;>
    cases hx : is_executable env.check <;>
      rcases hl : (load_config parse env.loadInput).1 with _ | m <;>
        cases hs : env.sendOkNow <;>
          simp [cyclePiece, armZero, hg, hx, hl, hs]

lemma cyclePiece_modes {α : Type} (parse : String → Except String α) (gen : Nat)
    (env : CycleEnv) (rx : Nat) :
    (cyclePiece parse gen env rx).filterMap modeOf = [selectedMode env.check] := by
  by_cases hg : gen = 0 <;>
    cases hx : is_executable env.check <;>
      rcases hl : (load_config parse env.loadInput).1 with _ | m <;>
        cases hs : env.sendOkNow <;>
          simp [cyclePiece, modeOf, selectedMode, hg, hx, hl, hs]

lemma runFrom_arm {α : Type} (parse : String → Except String α) :
    ∀ (envs : List CycleEnv) (gen : Nat) (st : RunState), st.rxId = 0 →
      armOk false st.events = true → st.events.all armZero = true →
      armOk false (runFrom parse gen st envs).events = true ∧
      (runFrom parse gen st envs).events.all armZero = true
  | [], _, _, _, h1, h2 => ⟨h1, h2⟩
  | env :: rest, gen, st, hrx, h1, h2 => by
    cases hst : st.returned with
    | true =>
      rw [runFrom_of_returned parse (env :: rest) gen st hst]
      exact ⟨h1, h2⟩
    | false =>
      have hev := cycleStep_events parse gen env st
      have hrx2 : (cycleStep parse gen env st).rxId = 0 := by
        rw [cycleStep_rxId]; exact hrx
      have h1a : armOk false (cycleStep parse gen env st).events = true := by
        rw [hev, hrx, armOk_append, h1, armOk_cyclePiece]
        rfl
      have h2a : (cycleStep parse gen env st).events.all armZero = true := by
        rw [hev, hrx, List.all_append, h2, cyclePiece_armZero]
        rfl
      have hrec := runFrom_arm parse rest (gen + 1) (cycleStep parse gen env st) hrx2 h1a h2a
      simpa [runFrom, hst] using hrec

lemma runFrom_modes {α : Type} (parse : String → Except String α) :
    ∀ (envs : List CycleEnv) (gen : Nat) (st : RunState),
      (runFrom parse gen st envs).returned = false →
      (runFrom parse gen st envs).events.filterMap modeOf =
        st.events.filterMap modeOf ++ envs.map (fun e => selectedMode e.check)
  | [], _, _, _ => by simp [runFrom]
  | env :: rest, gen, st, h => by
    cases hst : st.returned with
    | true =>
      rw [runFrom_of_returned parse (env :: rest) gen st hst, hst] at h
      simp at h
    | false =>
      have hstep : runFrom parse gen st (env :: rest) =
          runFrom parse (gen + 1) (cycleStep parse gen env st) rest := by
        simp [runFrom, hst]
      rw [hstep] at h ⊢
      rw [runFrom_modes parse rest (gen + 1) (cycleStep parse gen env st) h,
        cycleStep_events parse gen env st, List.filterMap_append, cyclePiece_modes]
      simp

lemma runFrom_exec_returned {α : Type} (parse : String → Except String α) :
    ∀ (envs : List CycleEnv) (gen : Nat) (st : RunState),
      (∀ e ∈ envs, is_executable e.check = true) →
      (runFrom parse gen st envs).returned = st.returned
  | [], _, _, _ => rfl
  | env :: rest, gen, st, h => by
    cases hst : st.returned with
    | true => rw [runFrom_of_returned parse (env :: rest) gen st hst, hst]
    | false =>
      have hx : is_executable env.check = true := h env (by simp)
      have hcr : (cycleStep parse gen env st).returned = st.returned := by
        by_cases hg : gen = 0 <;> cases hr : env.readerSelfEnds <;>
          simp [cycleStep, reloadConfig, hx, hg, hr]
      have hrec := runFrom_exec_returned parse rest (gen + 1) (cycleStep parse gen env st)
        (fun e he => h e (by simp [he]))
      simp [runFrom, hst, hrec, hcr]

lemma cycleStep_static_fail_returned {α : Type} (parse : String → Except String α)
    (gen : Nat) (env : CycleEnv) (st : RunState)
    (hplain : is_executable env.check = false)
    (hload : ((load_config parse env.loadInput).1).isSome = true)
    (hsend : env.sendOkNow = false) :
    (cycleStep parse gen env st).returned = true := by
  rcases Option.isSome_iff_exists.mp hload with ⟨m, hm⟩
  by_cases hg : gen = 0 <;> cases hr : env.readerSelfEnds <;>
    simp [cycleStep, reloadConfig, hplain, hm, hsend, hg, hr]

/-- Claim C8: every cycle of the run loop re-arms the watcher wait before
the mode selection and before any delivery event of that cycle, and every
arm event parks on the one receiver created at startup (identity 0): the
wakeup mechanism is reused across cycles, never recreated. -/
theorem c8_watcher_armed_each_cycle {α : Type} (parse : String → Except String α)
    (envs : List CycleEnv) :
    armOk false (RichPresenceConfig.run parse envs).events = true ∧
    (RichPresenceConfig.run parse envs).events.all armZero = true :=
  runFrom_arm parse envs 0 initRunState rfl rfl rfl

/-- Claim C4: over any execution of the run loop that has not returned, the
sequence of selected modes is exactly the per-cycle permission-check
outcomes mapped through the selection rule: `Executable` exactly when the
executable bit of that very cycle is set, `PlainFile` otherwise — the bit
is re-evaluated every cycle, never cached — and a failed permission check
selects `PlainFile`. -/
theorem c4_mode_selected_per_cycle {α : Type} (parse : String → Except String α)
    (envs : List CycleEnv)
    (h : (RichPresenceConfig.run parse envs).returned = false) :
    (RichPresenceConfig.run parse envs).events.filterMap modeOf =
      envs.map (fun e => selectedMode e.check) ∧
    selectedMode ExecCheck.checkError = Mode.plainFile ∧
    (∀ b, selectedMode (ExecCheck.execBit b) =
      if b then Mode.executable else Mode.plainFile) := by
  refine ⟨?_, rfl, fun b => by cases b <;> rfl⟩
  have hm := runFrom_modes parse envs 0 initRunState h
  simpa [RichPresenceConfig.run, initRunState] using hm

/-- Witness for C4 at a concrete input: an executable cycle, a cycle whose
permission check fails, and a plain-file cycle select `Executable`,
`PlainFile`, `PlainFile` in that order. -/
theorem c4_mode_selected_per_cycle_witness :
    (RichPresenceConfig.run parseNone [envExec, envCheckFail, envPlain]).events.filterMap
        modeOf = [Mode.executable, Mode.plainFile, Mode.plainFile] := by
  have h := (c4_mode_selected_per_cycle parseNone [envExec, envCheckFail, envPlain] rfl).1
  exact h.trans (by decide)

/-- Claim C5 counterexample: at a concrete input — a plain-file cycle whose
config loads but whose inline send fails, followed by one more change
notification — the run loop hits its `return` (source line 109) and the
second notification is never handled: no reload notice, no re-arm, no mode
selection for it.  This refutes the claim that a failed send terminates
only the current generation while the reload loop stays alive. -/
theorem c5_counterexample :
    (RichPresenceConfig.run parseAll [envStaticFail, envExec]).returned = true ∧
    (RichPresenceConfig.run parseAll [envStaticFail, envExec]).events =
      [RunEvent.armWatcher 0, RunEvent.modeSelect Mode.plainFile] ∧
    RunEvent.reloadNotice ∉ (RichPresenceConfig.run parseAll [envStaticFail, envExec]).events :=
  ⟨rfl, rfl, by decide⟩

/-- Claim C5 as amended: the scope of a failed send depends on the mode.
While every cycle is in executable mode the run loop never returns (a
reader send failure is confined to the spawned reader task), but a failed
inline send of a loaded static config makes `run` return: the whole
orchestrator stops and all later change notifications leave its state
untouched. -/
theorem c5_send_failure_scope {α : Type} (parse : String → Except String α)
    (envs rest : List CycleEnv) (envStatic : CycleEnv)
    (hexec : ∀ e ∈ envs, is_executable e.check = true)
    (hplain : is_executable envStatic.check = false)
    (hload : ((load_config parse envStatic.loadInput).1).isSome = true)
    (hsend : envStatic.sendOkNow = false) :
    (RichPresenceConfig.run parse envs).returned = false ∧
    (RichPresenceConfig.run parse (envs ++ envStatic :: rest)).returned = true ∧
    RichPresenceConfig.run parse (envs ++ envStatic :: rest) =
      RichPresenceConfig.run parse (envs ++ [envStatic]) := by
  have h0 : (RichPresenceConfig.run parse envs).returned = false := by
    rw [RichPresenceConfig.run, runFrom_exec_returned parse envs 0 initRunState hexec]
    rfl
  have hfail := cycleStep_static_fail_returned parse envs.length envStatic
    (RichPresenceConfig.run parse envs) hplain hload hsend
  have hone : ∀ ys : List CycleEnv,
      RichPresenceConfig.run parse (envs ++ envStatic :: ys) =
        cycleStep parse envs.length envStatic (RichPresenceConfig.run parse envs) := by
    intro ys
    rw [RichPresenceConfig.run, runFrom_append parse envs (envStatic :: ys) 0 initRunState]
    rw [show runFrom parse 0 initRunState envs = RichPresenceConfig.run parse envs from rfl]
    have hstep : runFrom parse (0 + envs.length) (RichPresenceConfig.run parse envs)
        (envStatic :: ys) =
        runFrom parse (0 + envs.length + 1)
          (cycleStep parse (0 + envs.length) envStatic (RichPresenceConfig.run parse envs)) ys := by
      simp [runFrom, h0]
    rw [hstep, Nat.zero_add,
      runFrom_of_returned parse ys (envs.length + 1)
        (cycleStep parse envs.length envStatic (RichPresenceConfig.run parse envs)) hfail]
  refine ⟨h0, ?_, ?_⟩
  · rw [hone rest]; exact hfail
  · rw [hone rest, hone []]

/-- Witness for C5 at a concrete input: one executable cycle, then a
plain-file cycle with a failing send, then one further notification — the
loop is returned and the extra notification changes nothing. -/
theorem c5_send_failure_scope_witness :
    (RichPresenceConfig.run parseAll [envExec]).returned = false ∧
    (RichPresenceConfig.run parseAll ([envExec] ++ envStaticFail :: [envExec])).returned = true ∧
    RichPresenceConfig.run parseAll ([envExec] ++ envStaticFail :: [envExec]) =
      RichPresenceConfig.run parseAll ([envExec] ++ [envStaticFail]) := by
  refine c5_send_failure_scope parseAll [envExec] [envExec] envStaticFail ?_ rfl rfl rfl
  intro e he
  rw [List.mem_singleton] at he
  rw [he]
  rfl

/-- Claim C1, evaluated at its failing input: two consecutive
executable-mode cycles whose first subprocess keeps running.  After the
reload, both generation 0 and generation 1 reader tasks are active at once:
the source only overwrites `_reader_task` (detaching the previous tokio
task) and never aborts it, so the previous generation is not cancelled and
two generations deliver concurrently. -/
theorem c1_previous_generation_not_cancelled :
    (RichPresenceConfig.run parseNone [envExec, envExec]).activeReaders = [1, 0] ∧
    (RichPresenceConfig.run parseNone [envExec, envExec]).activeReaders.length = 2 :=
  ⟨rfl, rfl⟩

/-- Claim C7 counterexample: at a concrete input where the watcher cannot
be created, the source constructor still returns a handle — `new` reduces
to a `RichPresenceConfig` value whose background task has panicked with an
empty trace — while the spec-modelled constructor aborts with no handle.
The failure is not propagated to the caller of `new`. -/
theorem c7_counterexample :
    RichPresenceConfig.new parseNone WatcherSetup.createError [envExec] =
      { task := { panicked := true, finalState := initRunState } } ∧
    new_spec parseNone WatcherSetup.createError [envExec] = none :=
  ⟨rfl, rfl⟩

/-- Claim C7 as amended: if the Change Watcher cannot be established, the
spawned run task panics before any cycle — no events, no reader tasks, so
the component never runs in a degraded no-reload mode — but the
constructor itself still returns a handle: the failure stays inside the
background task instead of being propagated to the caller of `new`. -/
theorem c7_watcher_failure_panics_task {α : Type} (parse : String → Except String α)
    (envs : List CycleEnv) (w : WatcherSetup) (h : w ≠ WatcherSetup.ok) :
    (RichPresenceConfig.new parse w envs).task.panicked = true ∧
    (RichPresenceConfig.new parse w envs).task.finalState.events = [] ∧
    (RichPresenceConfig.new parse w envs).task.finalState.activeReaders = [] ∧
    new_spec parse w envs = none := by
  cases w with
  | ok => exact absurd rfl h
  | createError => exact ⟨rfl, rfl, rfl, rfl⟩
  | watchError => exact ⟨rfl, rfl, rfl, rfl⟩

/-- Witness for C7 at a concrete input: a failing `watch` call panics the
background task with an empty trace while the spec-modelled constructor
aborts. -/
theorem c7_watcher_failure_panics_task_witness :
    (RichPresenceConfig.new parseNone WatcherSetup.watchError [envExec]).task.panicked = true ∧
    (RichPresenceConfig.new parseNone WatcherSetup.watchError [envExec]).task.finalState.events
      = [] ∧
    (RichPresenceConfig.new parseNone
        WatcherSetup.watchError [envExec]).task.finalState.activeReaders = [] ∧
    new_spec parseNone WatcherSetup.watchError [envExec] = none :=
  c7_watcher_failure_panics_task parseNone [envExec] WatcherSetup.watchError (by decide)

/-- Claim C9, evaluated at its failing input: the handle is dropped while
an executable-mode generation is mid-stream.  `Drop` aborts only the run
loop task; the reader task was spawned with `tokio::spawn` and is not
aborted by that, so it survives the drop, still holding the subprocess and
the channel sender — contradicting the claim that no reader task outlives
the handle and that no further messages can be sent. -/
theorem c9_reader_survives_drop :
    (dropHandle (RichPresenceConfig.new parseNone WatcherSetup.ok [envExec])).loopAlive
      = false ∧
    (dropHandle (RichPresenceConfig.new parseNone WatcherSetup.ok [envExec])).activeReaders
      = [0] :=
  ⟨rfl, rfl⟩

end RichPresence
